import Mathlib

namespace StarletteGraphene3

/-!
Verification development for the `starlette_graphene3` GraphQL ASGI app
(file `starlette_graphene3.py`): a shallow embedding of its operation
extractor, multipart file injector, context builder, HTTP handler and
WebSocket subscription protocol engine, with theorems about the claims
of the specification.

Conventions of the embedding:
* Python values (JSON-decoded data, file handles, the execution context)
  are modelled by the inductive type `Py`; Python `None` is `Py.none`.
* Python in-place mutation of a JSON tree is rendered functionally: the
  mutating function returns the updated tree.
* Fallible Python code returns `Except PyErr`; the constructors of
  `PyErr` mirror the Python exception classes that the source can raise
  (`ValueError` with its message, `KeyError`, `IndexError`, `TypeError`,
  `AttributeError`).
* The GraphQL engine (`parse`, `validate`, `execute`, `subscribe`,
  `format_error`) and the transport are external collaborators; their
  behaviour for a given request is passed in as explicit data.
-/

/-- Python exceptions that the modelled code can raise.  `valueError`
carries the message because `_handle_http_request` turns it into the
response body; the other constructors only need to be distinguishable
from `ValueError` (the sole class the HTTP handler catches). -/
inductive PyErr where
  | valueError (msg : String)
  | keyError (key : String)
  | indexError
  | typeError
  | attributeError
deriving DecidableEq, Repr

/-- Python values as they occur in the source: JSON-decoded data
(`none`, `bool`, `int`, `str`, `list`, `dict`), Starlette `UploadFile`
handles (`file`, by filename), the connection object (`request`, by an
opaque id), and `starlette.background.BackgroundTasks` (`background`). -/
inductive Py where
  | none
  | bool (b : Bool)
  | int (n : Int)
  | str (s : String)
  | list (xs : List Py)
  | dict (kvs : List (String × Py))
  | file (filename : String)
  | request (connId : Nat)
  | background
deriving Repr

/-- Python truthiness (`bool(x)`), used by the `or` in
`_get_context_value`. -/
def truthy : Py → Bool
  | Py.none => false
  | Py.bool b => b
  | Py.int n => n != 0
  | Py.str s => !s.isEmpty
  | Py.list xs => !xs.isEmpty
  | Py.dict kvs => !kvs.isEmpty
  | Py.file _ => true
  | Py.request _ => true
  | Py.background => true

/-- Lookup in a string-keyed Python dict rendered as an association
list (first match; keys of a Python dict are unique). -/
def assocGet {α : Type} (k : String) : List (String × α) → Option α
  | [] => Option.none
  | (k', v) :: rest => if k' = k then Option.some v else assocGet k rest

/-- Python dict assignment `d[k] = v`: replace the value when the key
is present, append the pair otherwise. -/
def assocSet {α : Type} (k : String) (v : α) : List (String × α) → List (String × α)
  | [] => [(k, v)]
  | (k', w) :: rest => if k' = k then (k', v) :: rest else (k', w) :: assocSet k v rest

/-- Python `del d[k]`. -/
def assocDel {α : Type} (k : String) : List (String × α) → List (String × α)
  | [] => []
  | (k', v) :: rest => if k' = k then assocDel k rest else (k', v) :: assocDel k rest

/-! ## The file injector (`_inject_file_to_operations`)

The source splits each dotted path on `.`, converts a segment to `int`
when `int(segment)` succeeds, indexes the tree with the (possibly
converted) segment, and at the last segment assigns the file handle iff
the present value is `None`. -/

/-- Value of a digit list read in base 10. -/
def digitsVal (cs : List Char) : Nat :=
  cs.foldl (fun a c => a * 10 + (c.toNat - 48)) 0

/-- The part of Python `int(s)` exercised by dotted path segments: an
optional leading minus sign followed by decimal digits parses, anything
else raises `ValueError` (rendered as `Option.none`).  The source uses
the parse only to decide between sequence indexing and key indexing. -/
def pyParseInt (s : String) : Option Int :=
  match s.data with
  | [] => Option.none
  | '-' :: rest =>
      if rest ≠ [] ∧ rest.all Char.isDigit then Option.some (-(digitsVal rest : Int))
      else Option.none
  | cs =>
      if cs.all Char.isDigit then Option.some (digitsVal cs : Int)
      else Option.none

/-- A path segment after the `int` conversion attempt. -/
inductive PathKey where
  | idx (i : Int)
  | key (s : String)
deriving DecidableEq, Repr

/-- `key = path[0]; try: key = int(key); except ValueError: pass`. -/
def toKey (s : String) : PathKey :=
  match pyParseInt s with
  | Option.some i => PathKey.idx i
  | Option.none => PathKey.key s

/-- Python sequence index normalisation: a negative index counts from
the end. -/
def listNorm (i : Int) (len : Nat) : Int :=
  if i < 0 then (len : Int) + i else i

/-- Python subscript read `t[k]` for the values the injector meets:
lists index by (possibly negative) integers, dicts look up string keys;
every other combination raises.  A JSON-decoded dict has only string
keys, so an integer subscript of a dict always raises `KeyError`. -/
def getItem (t : Py) (k : PathKey) : Except PyErr Py :=
  match t, k with
  | Py.list xs, PathKey.idx i =>
      if listNorm i xs.length < 0 then Except.error PyErr.indexError
      else
        match xs[(listNorm i xs.length).toNat]? with
        | Option.some v => Except.ok v
        | Option.none => Except.error PyErr.indexError
  | Py.list _, PathKey.key _ => Except.error PyErr.typeError
  | Py.dict kvs, PathKey.key s =>
      match assocGet s kvs with
      | Option.some v => Except.ok v
      | Option.none => Except.error (PyErr.keyError s)
  | Py.dict _, PathKey.idx i => Except.error (PyErr.keyError (toString i))
  | _, _ => Except.error PyErr.typeError

/-- Python subscript write `t[k] = v` (functional rendering).  List
assignment at an out-of-range index raises `IndexError`; dict
assignment on a string key always succeeds; an integer key can never be
present in a JSON-decoded dict, so that write is unreachable from the
injector and is rendered as a `TypeError`. -/
def setItem (t : Py) (k : PathKey) (v : Py) : Except PyErr Py :=
  match t, k with
  | Py.list xs, PathKey.idx i =>
      if listNorm i xs.length < 0 then Except.error PyErr.indexError
      else if (listNorm i xs.length).toNat < xs.length then
        Except.ok (Py.list (xs.set (listNorm i xs.length).toNat v))
      else Except.error PyErr.indexError
  | Py.list _, PathKey.key _ => Except.error PyErr.typeError
  | Py.dict kvs, PathKey.key s => Except.ok (Py.dict (assocSet s v kvs))
  | Py.dict _, PathKey.idx _ => Except.error PyErr.typeError
  | _, _ => Except.error PyErr.typeError

/-- `_inject_file_to_operations(ops_tree, _file, path)`: descend along
the split path, and at the last segment write the file handle iff the
value found there is `None`.  The Python function mutates in place;
here the updated tree is returned. -/
def injectFileToOperations (t : Py) (f : Py) : List String → Except PyErr Py
  | [] => Except.error PyErr.indexError
  | [k] =>
      match getItem t (toKey k) with
      | Except.error e => Except.error e
      | Except.ok Py.none => setItem t (toKey k) f
      | Except.ok _ => Except.ok t
  | k :: k2 :: rest =>
      match getItem t (toKey k) with
      | Except.error e => Except.error e
      | Except.ok sub =>
          match injectFileToOperations sub f (k2 :: rest) with
          | Except.error e => Except.error e
          | Except.ok sub' => setItem t (toKey k) sub'

/-- Reading the tree along a split path with the same segment
semantics as the injector (specification-side observer used to state
theorems about `injectFileToOperations`). -/
def lookupPath (t : Py) : List String → Except PyErr Py
  | [] => Except.ok t
  | k :: rest =>
      match getItem t (toKey k) with
      | Except.error e => Except.error e
      | Except.ok sub => lookupPath sub rest

/-- Split of a character list at every `'.'`, keeping empty segments:
the behaviour of Python `path.split(".")` used at the call site of the
injector. -/
def splitDotChars : List Char → List (List Char)
  | [] => [[]]
  | c :: rest =>
      if c = '.' then [] :: splitDotChars rest
      else
        match splitDotChars rest with
        | [] => [[c]]
        | seg :: segs => (c :: seg) :: segs

/-- Python `path.split(".")` on a string. -/
def pySplitDot (s : String) : List String :=
  (splitDotChars s.data).map (fun cs => String.mk cs)

/-- Operations value of the README multipart example after its file
placeholder has been filled. -/
def c5TreeAfter : Py :=
  Py.dict [("query", Py.str "mutation"), ("variables", Py.dict [("file", Py.file "test.txt")])]

/-! ## The operation extractor (`_get_operation_from_request`,
`_get_operation_from_multipart`) -/

/-- A multipart form part as the source reads it: either a text field,
carried here by the outcome of `json.loads` on its content (the only
use the source makes of a text field), or a Starlette `UploadFile`. -/
inductive FormVal where
  | text (parsed : Except Unit Py)
  | file (filename : String)

/-- `request.form()` result: the parts in wire order. -/
structure FormData where
  items : List (String × FormVal)

/-- Starlette `FormData.get`: the mapping built from the items lets a
later duplicate key shadow an earlier one. -/
def assocGetLast {α : Type} (k : String) : List (String × α) → Option α
  | [] => Option.none
  | (k', v) :: rest =>
      match assocGetLast k rest with
      | Option.some r => Option.some r
      | Option.none => if k' = k then Option.some v else Option.none

/-- `files = {k: v for (k, v) in request_body.items() if isinstance(v, UploadFile)}`:
the dict of upload parts, later duplicates overwriting earlier ones. -/
def filesOf (fd : FormData) : List (String × Py) :=
  fd.items.foldl
    (fun acc kv =>
      match kv.2 with
      | FormVal.file fn => assocSet kv.1 (Py.file fn) acc
      | FormVal.text _ => acc)
    []

/-- `json.loads(request_body.get(name))` as the multipart parser uses
it: a missing field (`None`), an upload part, or unparsable text all
raise into the surrounding `except (TypeError, ValueError)`. -/
def jsonField (fv : Option FormVal) : Option Py :=
  match fv with
  | Option.some (FormVal.text (Except.ok v)) => Option.some v
  | _ => Option.none

/-- Python iteration `for path in paths` over a JSON-decoded value:
lists yield their elements, strings their characters, dicts their keys;
everything else raises `TypeError`. -/
def iterPaths : Py → Except PyErr (List Py)
  | Py.list xs => Except.ok xs
  | Py.str s => Except.ok (s.data.map (fun c => Py.str (String.mk [c])))
  | Py.dict kvs => Except.ok (kvs.map (fun kv => Py.str kv.1))
  | _ => Except.error PyErr.typeError

/-- Inner loop of the multipart parser for one map entry: for each
dotted path, split on `.` (requires a string, else `AttributeError`),
look the file handle up in the parts dict (`files[name]`, raising
`KeyError` when absent), and inject. -/
def forPaths (files : List (String × Py)) (name : String) :
    Py → List Py → Except PyErr Py
  | ops, [] => Except.ok ops
  | ops, Py.str s :: rest =>
      match assocGet name files with
      | Option.none => Except.error (PyErr.keyError name)
      | Option.some fileV =>
          match injectFileToOperations ops fileV (pySplitDot s) with
          | Except.error e => Except.error e
          | Except.ok ops' => forPaths files name ops' rest
  | _, _ :: _ => Except.error PyErr.attributeError

/-- Outer loop of the multipart parser over the `map` entries. -/
def forMap (files : List (String × Py)) :
    Py → List (String × Py) → Except PyErr Py
  | ops, [] => Except.ok ops
  | ops, (name, pv) :: rest =>
      match iterPaths pv with
      | Except.error e => Except.error e
      | Except.ok paths =>
          match forPaths files name ops paths with
          | Except.error e => Except.error e
          | Except.ok ops' => forMap files ops' rest

/-- Shape test used by `_get_operation_from_multipart`:
`isinstance(operations, (dict, list))`. -/
def isDictOrList : Py → Bool
  | Py.dict _ => true
  | Py.list _ => true
  | _ => false

/-- An inbound HTTP request as the extractor reads it: the raw
`Content-Type` header value (absent when the header is missing), the
outcome of `request.json()` (`Option.none` when the body is not valid
JSON), and the outcome of `request.form()` (`Option.none` when the
body is not valid multipart framing). -/
structure Request where
  contentType : Option String
  jsonBody : Option Py
  form : Option FormData

/-- `_get_operation_from_multipart(request)`. -/
def getOperationFromMultipart (req : Request) : Except PyErr Py :=
  match req.form with
  | Option.none =>
      Except.error (PyErr.valueError "Request body is not a valid multipart/form-data")
  | Option.some fd =>
      match jsonField (assocGetLast "operations" fd.items) with
      | Option.none =>
          Except.error (PyErr.valueError "\x27operations\x27 must be a valid JSON")
      | Option.some ops =>
          if !isDictOrList ops then
            Except.error
              (PyErr.valueError "\x27operations\x27 field must be an Object or an Array")
          else
            match jsonField (assocGetLast "map" fd.items) with
            | Option.none =>
                Except.error (PyErr.valueError "\x27map\x27 field must be a valid JSON")
            | Option.some (Py.dict entries) => forMap (filesOf fd) ops entries
            | Option.some _ =>
                Except.error (PyErr.valueError "\x27map\x27 field must be an Object")

/-- `content_type = request.headers.get("Content-Type", "").split(";")[0]`:
the part of the raw header value before the first `;`, the empty string
when the header is absent.  The comparison performed on it by the
dispatcher is exact (case-sensitive). -/
def contentTypeHead (req : Request) : String :=
  match (req.contentType.getD "").data.takeWhile (fun c => c ≠ ';') with
  | cs => String.mk cs

/-- `_get_operation_from_request(request)`. -/
def getOperationFromRequest (req : Request) : Except PyErr Py :=
  if contentTypeHead req = "application/json" then
    match req.jsonBody with
    | Option.some v => Except.ok v
    | Option.none => Except.error (PyErr.valueError "Request body is not a valid JSON")
  else if contentTypeHead req = "multipart/form-data" then
    getOperationFromMultipart req
  else
    Except.error
      (PyErr.valueError "Content-type must be application/json or multipart/form-data")

/-- ASCII lowercasing of a character, used only to state that two
content-type strings differ in letter case alone. -/
def asciiLower (c : Char) : Char :=
  if 65 ≤ c.toNat ∧ c.toNat ≤ 90 then Char.ofNat (c.toNat + 32) else c

/-- ASCII lowercasing of a string. -/
def lowerString (s : String) : String :=
  String.mk (s.data.map asciiLower)

/-- A start-to-finish concrete request whose declared content type
differs from `application/json` only in letter case. -/
def c7Request : Request :=
  { contentType := Option.some "Application/JSON; charset=utf-8",
    jsonBody := Option.some (Py.dict [("query", Py.str "query { me { name } }")]),
    form := Option.none }

/-- The concrete request of the repository's own missing-file test: a
well-formed multipart body whose map references `invalid_name` while
the only uploaded part is named `0`. -/
def c6Request : Request :=
  { contentType := Option.some "multipart/form-data",
    jsonBody := Option.none,
    form :=
      Option.some
        { items :=
            [("operations",
              FormVal.text
                (Except.ok
                  (Py.dict [("query", Py.str "mutation"),
                            ("variables", Py.dict [("file", Py.none)])]))),
             ("map",
              FormVal.text
                (Except.ok (Py.dict [("invalid_name", Py.list [Py.str "variables.file"])]))),
             ("0", FormVal.file "test.txt")] } }

/-! ## Context builder (`_get_context_value`) and the HTTP handler
(`_handle_http_request`) -/

/-- A GraphQL structured error (the engine's `GraphQLError`), reduced
to what the modelled code observes of it: its message. -/
structure GError where
  msg : String
deriving DecidableEq, Repr

/-- `format_error` (the configured `error_formatter`), an external
collaborator: a structured error becomes a JSON-serialisable object
carrying at least the message. -/
def formatError (e : GError) : Py :=
  Py.dict [("message", Py.str e.msg)]

/-- The engine's `ExecutionResult`, reduced to what the modelled code
reads from it: `data` (a JSON value, `Py.none` for null) and the list
of structured errors. -/
structure ExecutionResult where
  data : Py
  errors : List GError

/-- The configured `context_value` of the app, split by the two tests
the source applies to it: `callable(self.context_value)` and
`isawaitable` of the call's result.  A non-callable configured value
(including the default `None`) is `value`; a callable is carried with
the final context it produces for a given connection, already awaited
in the `callableAsync` case. -/
inductive ContextSource where
  | value (v : Py)
  | callableSync (f : Nat → Py)
  | callableAsync (f : Nat → Py)

/-- The default context built when no (truthy) static context is
configured. -/
def defaultContext (conn : Nat) : Py :=
  Py.dict [("request", Py.request conn), ("background", Py.background)]

/-- `_get_context_value(self, request)`: a callable configured source
is invoked with the connection (and awaited when the result is
awaitable); otherwise `self.context_value or {"request": ..., "background": ...}`. -/
def getContextValue (cfg : ContextSource) (conn : Nat) : Py :=
  match cfg with
  | ContextSource.callableSync f => f conn
  | ContextSource.callableAsync f => f conn
  | ContextSource.value v => if truthy v then v else defaultContext conn

/-- Python subscript `op["query"]` on the extracted operation, as the
HTTP handler performs it: a dict looks the key up (`KeyError` when
absent); any non-dict, non-list operation value raises `TypeError`. -/
def pyGetItemStr (t : Py) (k : String) : Except PyErr Py :=
  match t with
  | Py.dict kvs =>
      match assocGet k kvs with
      | Option.some v => Except.ok v
      | Option.none => Except.error (PyErr.keyError k)
  | _ => Except.error PyErr.typeError

/-- Python method call `t.get(k)`: only mappings have `.get`, anything
else raises `AttributeError`. -/
def pyDotGet (t : Py) (k : String) : Except PyErr (Option Py) :=
  match t with
  | Py.dict kvs => Except.ok (assocGet k kvs)
  | _ => Except.error PyErr.attributeError

/-- An HTTP response as the handler builds it: status code and JSON
body. -/
structure HttpResponse where
  status : Nat
  body : Py

/-- Response body `{"data": ..., "errors"?: [...]}` built from the
engine's result by `_handle_http_request`. -/
def httpResponseBody (r : ExecutionResult) : Py :=
  Py.dict
    (("data", r.data) ::
      (if r.errors.isEmpty then [] else [("errors", Py.list (r.errors.map formatError))]))

/-- `_handle_http_request(self, request)`.  The engine call itself is
an external collaborator: its result for this request is the parameter
`er`; the context value (built by `_get_context_value`) is `ctx`.  Only
`ValueError` from extraction is caught and turned into a 400 response;
every other exception propagates out of the handler. -/
def handleHttpRequest (req : Request) (ctx : Py) (er : ExecutionResult) :
    Except PyErr HttpResponse :=
  match getOperationFromRequest req with
  | Except.error (PyErr.valueError m) =>
      Except.ok { status := 400, body := Py.dict [("errors", Py.list [Py.str m])] }
  | Except.error e => Except.error e
  | Except.ok (Py.list _) =>
      Except.ok
        { status := 400,
          body := Py.dict [("errors", Py.list [Py.str "This server does not support batching"])] }
  | Except.ok op =>
      match pyGetItemStr op "query" with
      | Except.error e => Except.error e
      | Except.ok _ =>
          match pyDotGet op "variables" with
          | Except.error e => Except.error e
          | Except.ok _ =>
              match pyDotGet op "operationName" with
              | Except.error e => Except.error e
              | Except.ok _ =>
                  match pyDotGet ctx "background" with
                  | Except.error e => Except.error e
                  | Except.ok _ =>
                      Except.ok { status := 200, body := httpResponseBody er }

/-- A JSON request whose body parses to an object with no `query`
entry: extraction succeeds with a non-array value, yet the handler
raises `KeyError` at `operation["query"]`. -/
def c10Request : Request :=
  { contentType := Option.some "application/json",
    jsonBody := Option.some (Py.dict [("foo", Py.int 1)]),
    form := Option.none }

/-! ## The WebSocket subscription protocol engine
(`_run_websocket_server`, `_handle_websocket_message`, `_ws_on_start`,
`_start_subscription`, `_handle_query_over_ws`, `_observe_subscription`)

The per-connection state carries a store of every async generator the
connection has created (`store`), so that the registry
(`subscriptions`) and the spawned observer tasks (`pending`) can alias
the same generator by its store index, exactly as the Python objects
are aliased.  Everything the server sends is appended to `sent`. -/

/-- `OperationType` of the resolved operation definition. -/
inductive OpType where
  | query
  | mutation
  | subscription
deriving DecidableEq, Repr

/-- One step of a subscription's async generator: yield a result whose
`data` is given, or raise.  A raise ends the generator; the observer
wraps a non-`GraphQLError` exception into a `GraphQLError`, so the
carried value is the structured error after that wrapping. -/
inductive StreamEvent where
  | emit (d : Py)
  | fail (e : GError)
deriving Repr

/-- A subscription's async generator: the steps it has not yet taken,
and whether `aclose()` has been called on it. -/
structure Producer where
  remaining : List StreamEvent
  closed : Bool
deriving Repr

/-- Messages the server sends over the socket. -/
inductive ServerMsg where
  | connectionAck
  | data (id : String) (payload : Py)
  | error (id : String) (payload : Py)
  | complete (id : String)
deriving Repr

/-- What the engine's `execute` returns for a `start` carrying a
query/mutation: a plain `ExecutionResult` (`sync`) or an awaitable
resolving to one (`async`).  `_handle_query_over_ws` distinguishes the
two with `isinstance(result, ExecutionResult)` / `isawaitable`. -/
inductive ExecReturn where
  | sync (r : ExecutionResult)
  | async (r : ExecutionResult)

/-- The behaviour of the external collaborators for one `start`
message: the outcome of `_get_context_value` (which may raise), the
outcome of the `parse`/`get_operation_ast`/`validate` block (a raised
`GraphQLError` is caught there), the resolved operation type, the
validation errors, and what `subscribe` / `execute` would return for
this document.  `subscribeResult` is `Except.error errs` when
`subscribe` returns an `ExecutionResult` with errors, and the
generator's steps otherwise. -/
structure StartOutcome where
  ctxResult : Except PyErr Unit
  parseResult : Except GError Unit
  opType : Option OpType
  validateErrors : List GError
  subscribeResult : Except (List GError) (List StreamEvent)
  executeReturn : ExecReturn

/-- Per-connection state of `_run_websocket_server`. -/
structure WsState where
  store : List Producer
  subscriptions : List (String × Nat)
  pending : List (String × Nat)
  sent : List ServerMsg
  connectionParams : Option Py
  clientOpen : Bool
  appOpen : Bool

/-- State at `websocket.accept`. -/
def initialWsState : WsState :=
  { store := [], subscriptions := [], pending := [], sent := [],
    connectionParams := Option.none, clientOpen := true, appOpen := true }

/-- `await websocket.send_json(m)`. -/
def sendMsg (st : WsState) (m : ServerMsg) : WsState :=
  { st with sent := st.sent ++ [m] }

/-- The error list after the `try: parse/get_operation_ast/validate`
block of `_ws_on_start`: a raised `GraphQLError` becomes the sole
error, otherwise the validation result. -/
def stageErrors (o : StartOutcome) : List GError :=
  match o.parseResult with
  | Except.error e => [e]
  | Except.ok _ => o.validateErrors

/-- `{"data": ..., "errors"?: [...]}` payload of the `data` message
sent by `_handle_query_over_ws`. -/
def wsQueryPayload (r : ExecutionResult) : Py :=
  Py.dict
    (("data", r.data) ::
      (if r.errors.isEmpty then [] else [("errors", Py.list (r.errors.map formatError))]))

/-- `_start_subscription`: a synchronous `ExecutionResult` with errors
aborts with those errors; otherwise the generator is registered under
the operation id and an observer task for it is spawned (not awaited
inline). -/
def startSubscription (o : StartOutcome) (id : String) (st : WsState) :
    WsState × List GError :=
  match o.subscribeResult with
  | Except.error errs => (st, errs)
  | Except.ok events =>
      ({ st with
          store := st.store ++ [{ remaining := events, closed := false }],
          subscriptions := assocSet id st.store.length st.subscriptions,
          pending := st.pending ++ [(id, st.store.length)] },
        [])

/-- `_handle_query_over_ws`: a synchronous result with errors is
returned as the error list; otherwise the (awaited) result is sent as
one `data` message and no errors are returned. -/
def handleQueryOverWs (o : StartOutcome) (id : String) (st : WsState) :
    WsState × List GError :=
  match o.executeReturn with
  | ExecReturn.sync r =>
      if r.errors.isEmpty then (sendMsg st (ServerMsg.data id (wsQueryPayload r)), [])
      else (st, r.errors)
  | ExecReturn.async r => (sendMsg st (ServerMsg.data id (wsQueryPayload r)), [])

/-- `_ws_on_start`: build the context (a raise here propagates to the
caller), run the parse/validate stage, dispatch on the operation type,
and if any errors were captured send exactly one `error` message with
the formatted first error. -/
def wsOnStart (o : StartOutcome) (id : String) (st : WsState) : Except PyErr WsState :=
  match o.ctxResult with
  | Except.error e => Except.error e
  | Except.ok _ =>
      match stageErrors o with
      | [] =>
          match
            (if o.opType = Option.some OpType.subscription then startSubscription o id st
             else handleQueryOverWs o id st) with
          | (st1, []) => Except.ok st1
          | (st1, e :: _) => Except.ok (sendMsg st1 (ServerMsg.error id (formatError e)))
      | e :: _ => Except.ok (sendMsg st (ServerMsg.error id (formatError e)))

/-- The value of the `errors` variable of `_ws_on_start` at its final
`if errors:` test, as a function of the engine outcomes. -/
def capturedErrors (o : StartOutcome) : List GError :=
  match stageErrors o with
  | [] =>
      if o.opType = Option.some OpType.subscription then
        match o.subscribeResult with
        | Except.error errs => errs
        | Except.ok _ => []
      else
        match o.executeReturn with
        | ExecReturn.sync r => if r.errors.isEmpty then [] else r.errors
        | ExecReturn.async _ => []
  | e :: rest => e :: rest

/-- Inbound client messages, with the engine behaviour for a `start`
attached as its `StartOutcome`. -/
inductive ClientMsg where
  | connectionInit (payload : Option Py)
  | connectionTerminate
  | start (id : String) (outcome : StartOutcome)
  | stop (id : String)

/-- `_handle_websocket_message`: `connection_init` stores the payload
and acks; `connection_terminate` closes the socket (application state
leaves `open`); `start` runs `_ws_on_start`; `stop` acloses and
deletes the registered generator, and is a no-op for an unknown id. -/
def handleWebsocketMessage (m : ClientMsg) (st : WsState) : Except PyErr WsState :=
  match m with
  | ClientMsg.connectionInit p =>
      Except.ok (sendMsg { st with connectionParams := p } ServerMsg.connectionAck)
  | ClientMsg.connectionTerminate => Except.ok { st with appOpen := false }
  | ClientMsg.start id o => wsOnStart o id st
  | ClientMsg.stop id =>
      match assocGet id st.subscriptions with
      | Option.some idx =>
          Except.ok
            { st with
                store := st.store.set idx { remaining := [], closed := true },
                subscriptions := assocDel id st.subscriptions }
      | Option.none => Except.ok st

/-- The messages the observer's `async for` loop sends while consuming
the generator: one `data` message per yielded result; an exception ends
the loop after one `data` message whose payload carries only the
formatted error. -/
def observeMsgs (id : String) : List StreamEvent → List ServerMsg
  | [] => []
  | StreamEvent.emit d :: rest =>
      ServerMsg.data id (Py.dict [("data", d)]) :: observeMsgs id rest
  | StreamEvent.fail e :: _ =>
      [ServerMsg.data id (Py.dict [("errors", Py.list [formatError e])])]

/-- Running the observer task `_observe_subscription(asyncgen, id, ws)`
of the generator at store index `idx` to completion: it consumes the
generator (sending the messages above), then sends `complete` iff
neither side of the connection has left the open state.  The function
has no access to the registry: the Python coroutine is not passed
`subscriptions`. -/
def runObserver (st : WsState) (id : String) (idx : Nat) : WsState :=
  match st.store[idx]? with
  | Option.none => st
  | Option.some p =>
      { st with
          store := st.store.set idx { remaining := [], closed := p.closed },
          sent :=
            st.sent ++ observeMsgs id p.remaining ++
              (if st.clientOpen && st.appOpen then [ServerMsg.complete id] else []),
          pending := st.pending.filter (fun t => !(t.2 == idx)) }

/-- Membership test on store indices. -/
def natMem (i : Nat) : List Nat → Bool
  | [] => false
  | j :: rest => if j = i then true else natMem i rest

/-- `aclose()` of every generator whose store index is in `targets`
(the gather of the `finally` block), walking the store from index
`start`. -/
def closeFrom (targets : List Nat) : Nat → List Producer → List Producer
  | _, [] => []
  | i, p :: rest =>
      (if natMem i targets then { remaining := [], closed := true } else p) ::
        closeFrom targets (i + 1) rest

/-- The `finally` block of `_run_websocket_server`:
`asyncio.gather(*(subscriptions[id].aclose() for id in subscriptions))`
— every still-registered generator is closed, and the block returns
only once all the `aclose()` calls have completed. -/
def teardown (st : WsState) : WsState :=
  { st with store := closeFrom (st.subscriptions.map (fun kv => kv.2)) 0 st.store }

/-- What `await websocket.receive_json()` produces next: a message, or
a raised `WebSocketDisconnect`. -/
inductive InEvent where
  | msg (m : ClientMsg)
  | disconnect

/-- How the message loop of `_run_websocket_server` ended. -/
inductive ServerExit where
  | normal
  | pending
  | disconnected
  | raised (e : PyErr)
deriving Repr

/-- The `while`/`try` of `_run_websocket_server`: before each receive
the loop re-checks that neither connection state has left `open`; a
`WebSocketDisconnect` from the receive is caught and ignored; any other
exception raised by message handling escapes the loop.  An exhausted
event list while still connected is reported as `ServerExit.pending`
(the Python coroutine would be suspended in `receive_json`). -/
def runLoop : List InEvent → WsState → WsState × ServerExit
  | [], st =>
      if st.clientOpen && st.appOpen then (st, ServerExit.pending)
      else (st, ServerExit.normal)
  | InEvent.disconnect :: _, st =>
      if st.clientOpen && st.appOpen then (st, ServerExit.disconnected)
      else (st, ServerExit.normal)
  | InEvent.msg m :: rest, st =>
      if st.clientOpen && st.appOpen then
        match handleWebsocketMessage m st with
        | Except.error e => (st, ServerExit.raised e)
        | Except.ok st' => runLoop rest st'
      else (st, ServerExit.normal)

/-- `_run_websocket_server` afteraccepting the socket: run the message
loop, then — whatever way it ended — run the `finally` block that
closes every still-registered generator. -/
def runWebsocketServer (events : List InEvent) (st : WsState) : WsState × ServerExit :=
  match runLoop events st with
  | (st', ex) => (teardown st', ex)

/-- Outcome of a `start` carrying a syntactically invalid query: the
`parse` call raises a `GraphQLError`. -/
def c4Outcome : StartOutcome :=
  { ctxResult := Except.ok (), parseResult := Except.error { msg := "Syntax Error" },
    opType := Option.none, validateErrors := [],
    subscribeResult := Except.ok [],
    executeReturn := ExecReturn.sync { data := Py.none, errors := [] } }

/-- The engine outcome of a valid subscription `start` whose generator
takes the given steps. -/
def subOutcome (events : List StreamEvent) : StartOutcome :=
  { ctxResult := Except.ok (), parseResult := Except.ok (),
    opType := Option.some OpType.subscription, validateErrors := [],
    subscribeResult := Except.ok events,
    executeReturn := ExecReturn.sync { data := Py.none, errors := [] } }

/-- Applying one handled message to the state (used to build concrete
runs; the message is known not to raise). -/
def wsStep (m : ClientMsg) (st : WsState) : WsState :=
  match handleWebsocketMessage m st with
  | Except.ok st' => st'
  | Except.error _ => st

/-- The connection state after `start q1` with an immediately-ending
subscription generator followed by its observer running to natural
completion. -/
def c1Final : WsState :=
  runObserver (wsStep (ClientMsg.start "q1" (subOutcome [])) initialWsState) "q1" 0

/-- A connection state with one registered live subscription. -/
def c1RegState : WsState :=
  { initialWsState with
      store := [{ remaining := [StreamEvent.emit (Py.int 0)], closed := false }],
      subscriptions := [("q1", 0)] }

/-- A session that starts one subscription (with results still
pending) and is then cut by a transport disconnect. -/
def c2Events : List InEvent :=
  [InEvent.msg (ClientMsg.connectionInit Option.none),
   InEvent.msg
     (ClientMsg.start "q1"
       (subOutcome [StreamEvent.emit (Py.int 0), StreamEvent.emit (Py.int 1)])),
   InEvent.disconnect]

/-- A `start` whose configured context builder raises. -/
def c8BadOutcome : StartOutcome :=
  { ctxResult := Except.error (PyErr.valueError "boom"), parseResult := Except.ok (),
    opType := Option.none, validateErrors := [],
    subscribeResult := Except.ok [],
    executeReturn := ExecReturn.sync { data := Py.none, errors := [] } }

/-- A session where a live subscription `q1` exists, the context
builder raises during the `start` of `q2`, and the client would next
start `q3`. -/
def c8Events : List InEvent :=
  [InEvent.msg (ClientMsg.connectionInit Option.none),
   InEvent.msg (ClientMsg.start "q1" (subOutcome [StreamEvent.emit (Py.int 0)])),
   InEvent.msg (ClientMsg.start "q2" c8BadOutcome),
   InEvent.msg (ClientMsg.start "q3" (subOutcome []))]

theorem assocGet_assocSet {α : Type} (k : String) (v : α) :
    ∀ l : List (String × α), assocGet k (assocSet k v l) = Option.some v := by
  intro l
  induction l with
  | nil => simp [assocGet, assocSet]
  | cons kv rest ih =>
    obtain ⟨k', w⟩ := kv
    by_cases h : k' = k <;> simp [assocGet, assocSet, h, ih]

theorem assocSet_self {α : Type} (k : String) (v : α) :
    ∀ l : List (String × α), assocGet k l = Option.some v → assocSet k v l = l := by
  intro l
  induction l with
  | nil => intro h; simp [assocGet] at h
  | cons kv rest ih =>
    obtain ⟨k', w⟩ := kv
    intro h
    by_cases hk : k' = k
    · simp [assocGet, hk] at h
      simp [assocSet, hk, h]
    · simp [assocGet, hk] at h
      simp [assocSet, hk, ih h]

theorem assocGet_assocDel {α : Type} (k : String) :
    ∀ l : List (String × α), assocGet k (assocDel k l) = Option.none := by
  intro l
  induction l with
  | nil => simp [assocDel, assocGet]
  | cons kv rest ih =>
    obtain ⟨k', w⟩ := kv
    by_cases h : k' = k <;> simp [assocDel, assocGet, h, ih]

theorem splitDotChars_ne_nil : ∀ cs : List Char, splitDotChars cs ≠ [] := by
  intro cs
  induction cs with
  | nil => simp [splitDotChars]
  | cons c rest ih =>
    by_cases h : c = '.'
    · simp [splitDotChars, h]
    · simp only [splitDotChars, h, if_false]
      cases hs : splitDotChars rest <;> simp

theorem pySplitDot_ne_nil (s : String) : pySplitDot s ≠ [] := by
  have h := splitDotChars_ne_nil s.data
  simp only [pySplitDot]
  cases hs : splitDotChars s.data with
  | nil => exact absurd hs h
  | cons a l => simp

theorem list_set_self {α : Type} :
    ∀ (xs : List α) (n : Nat) (a : α), xs[n]? = Option.some a → xs.set n a = xs := by
  intro xs
  induction xs with
  | nil => intro n a h; simp at h
  | cons x rest ih =>
    intro n a h
    cases n with
    | zero =>
      simp only [List.getElem?_cons_zero, Option.some.injEq] at h
      simp [List.set, h]
    | succ m =>
      simp only [List.getElem?_cons_succ] at h
      simp [List.set, ih m a h]

/-- After a successful read at a subscript, a write at the same
subscript succeeds and a subsequent read returns the written value. -/
theorem setItem_getItem (t : Py) (k : PathKey) (v w : Py)
    (h : getItem t k = Except.ok v) :
    ∃ t', setItem t k w = Except.ok t' ∧ getItem t' k = Except.ok w := by
  cases t with
  | list xs =>
    cases k with
    | idx i =>
      simp only [getItem] at h
      by_cases hneg : listNorm i xs.length < 0
      · simp [hneg] at h
      · simp only [hneg, if_false] at h
        cases hx : xs[(listNorm i xs.length).toNat]? with
        | none => rw [hx] at h; exact absurd h (by simp)
        | some u =>
          have hlt : (listNorm i xs.length).toNat < xs.length :=
            (List.getElem?_eq_some_iff.mp hx).1
          refine ⟨Py.list (xs.set (listNorm i xs.length).toNat w), ?_, ?_⟩
          · simp [setItem, hneg, hlt]
          · simp [getItem, List.length_set, hneg, List.getElem?_set_self hlt]
    | key s => simp [getItem] at h
  | dict kvs =>
    cases k with
    | idx i => simp [getItem] at h
    | key s =>
      simp only [getItem] at h
      cases hx : assocGet s kvs with
      | none => rw [hx] at h; exact absurd h (by simp)
      | some u =>
        refine ⟨Py.dict (assocSet s w kvs), ?_, ?_⟩
        · simp [setItem]
        · simp [getItem, assocGet_assocSet]
  | none => cases k <;> simp [getItem] at h
  | bool b => cases k <;> simp [getItem] at h
  | int n => cases k <;> simp [getItem] at h
  | str s => cases k <;> simp [getItem] at h
  | file fn => cases k <;> simp [getItem] at h
  | request c => cases k <;> simp [getItem] at h
  | background => cases k <;> simp [getItem] at h

/-- Writing back the value just read leaves the tree unchanged. -/
theorem setItem_self (t : Py) (k : PathKey) (v : Py)
    (h : getItem t k = Except.ok v) : setItem t k v = Except.ok t := by
  cases t with
  | list xs =>
    cases k with
    | idx i =>
      simp only [getItem] at h
      by_cases hneg : listNorm i xs.length < 0
      · simp [hneg] at h
      · simp only [hneg, if_false] at h
        cases hx : xs[(listNorm i xs.length).toNat]? with
        | none => rw [hx] at h; exact absurd h (by simp)
        | some u =>
          have hlt : (listNorm i xs.length).toNat < xs.length :=
            (List.getElem?_eq_some_iff.mp hx).1
          rw [hx] at h
          have hu : u = v := by exact Except.ok.inj h
          simp [setItem, hneg, hlt, list_set_self xs _ v (hu ▸ hx)]
    | key s => simp [getItem] at h
  | dict kvs =>
    cases k with
    | idx i => simp [getItem] at h
    | key s =>
      simp only [getItem] at h
      cases hx : assocGet s kvs with
      | none => rw [hx] at h; exact absurd h (by simp)
      | some u =>
        rw [hx] at h
        have hu : u = v := by exact Except.ok.inj h
        simp [setItem, assocSet_self s v kvs (hu ▸ hx)]
  | none => cases k <;> simp [getItem] at h
  | bool b => cases k <;> simp [getItem] at h
  | int n => cases k <;> simp [getItem] at h
  | str s => cases k <;> simp [getItem] at h
  | file fn => cases k <;> simp [getItem] at h
  | request c => cases k <;> simp [getItem] at h
  | background => cases k <;> simp [getItem] at h

/-- Core correctness of the injector on a nonempty split path: a
non-null value at the path is left untouched (the whole tree is
returned unchanged, no error), a null value is overwritten with the
file handle. -/
theorem injectFile_spec : ∀ (path : List String) (t f v : Py),
    path ≠ [] → lookupPath t path = Except.ok v →
    (v ≠ Py.none → injectFileToOperations t f path = Except.ok t) ∧
    (v = Py.none → ∃ t', injectFileToOperations t f path = Except.ok t' ∧
        lookupPath t' path = Except.ok f) := by
  intro path
  induction path with
  | nil => intro t f v h; exact absurd rfl h
  | cons k rest ih =>
    intro t f v _ hv
    cases rest with
    | nil =>
      simp only [lookupPath] at hv
      cases hg : getItem t (toKey k) with
      | error e => rw [hg] at hv; exact absurd hv (by simp)
      | ok sub =>
        rw [hg] at hv
        have hsub : sub = v := Except.ok.inj hv
        subst hsub
        constructor
        · intro hne
          simp only [injectFileToOperations, hg]
        · intro hnull
          subst hnull
          obtain ⟨t', h1, h2⟩ := setItem_getItem t (toKey k) Py.none f hg
          refine ⟨t', ?_, ?_⟩
          · simp only [injectFileToOperations, hg]; exact h1
          · simp only [lookupPath, h2]
    | cons k2 rest2 =>
      simp only [lookupPath] at hv
      cases hg : getItem t (toKey k) with
      | error e => rw [hg] at hv; exact absurd hv (by simp)
      | ok sub =>
        rw [hg] at hv
        have IH := ih sub f v (List.cons_ne_nil k2 rest2) hv
        constructor
        · intro hne
          simp only [injectFileToOperations, hg, IH.1 hne]
          exact setItem_self t (toKey k) sub hg
        · intro hnull
          obtain ⟨sub', hs1, hs2⟩ := IH.2 hnull
          obtain ⟨t', h1, h2⟩ := setItem_getItem t (toKey k) sub sub' hg
          refine ⟨t', ?_, ?_⟩
          · simp only [injectFileToOperations, hg, hs1]; exact h1
          · simp only [lookupPath, h2]; exact hs2

/-- C5: for every dotted path string, the injector splits it on `.`,
descends the operations tree treating an integer-parsing segment as a
sequence index and any other segment as an object key (the semantics of
`toKey`/`getItem`), and at the final segment writes the file handle iff
the value currently there is null; a non-null value is left untouched
with no error, so the operations tree is returned unchanged. -/
theorem c5_inject_descend_and_write (t f v : Py) (path : String)
    (hv : lookupPath t (pySplitDot path) = Except.ok v) :
    (v ≠ Py.none → injectFileToOperations t f (pySplitDot path) = Except.ok t) ∧
    (v = Py.none → ∃ t', injectFileToOperations t f (pySplitDot path) = Except.ok t' ∧
        lookupPath t' (pySplitDot path) = Except.ok f) :=
  injectFile_spec (pySplitDot path) t f v (pySplitDot_ne_nil path) hv

theorem c5_inject_descend_and_write_witness :
    injectFileToOperations c5TreeAfter (Py.file "other.txt") (pySplitDot "variables.file")
        = Except.ok c5TreeAfter :=
  (c5_inject_descend_and_write c5TreeAfter (Py.file "other.txt") (Py.file "test.txt")
      "variables.file" rfl).1 (fun h => Py.noConfusion h)

/-- C7 counterexample: the dispatcher compares the content type before
the first `;` by exact string equality, so a header differing from
`application/json` only in case (here `Application/JSON; charset=utf-8`,
whose lowered prefix is exactly `application/json`) does not take the
JSON branch but falls through to the
`Content-type must be application/json or multipart/form-data` failure,
refuting the claimed case-insensitive dispatch. -/
theorem c7_case_sensitive_counterexample :
    lowerString (contentTypeHead c7Request) = "application/json" ∧
    getOperationFromRequest c7Request =
      Except.error
        (PyErr.valueError "Content-type must be application/json or multipart/form-data") := by
  constructor
  · decide
  · rfl

/-- C7 amended: the extractor dispatches on the part of the declared
content type before the first `;` by exact, case-sensitive comparison:
`application/json` takes the JSON branch, `multipart/form-data` the
multipart branch, and every other value of that prefix — including
values differing from those two only in letter case — fails with
`InvalidInput("Content-type must be application/json or multipart/form-data")`. -/
theorem c7_amended_case_sensitive_dispatch (req : Request) :
    (contentTypeHead req = "application/json" →
      getOperationFromRequest req =
        match req.jsonBody with
        | Option.some v => Except.ok v
        | Option.none => Except.error (PyErr.valueError "Request body is not a valid JSON")) ∧
    (contentTypeHead req = "multipart/form-data" →
      getOperationFromRequest req = getOperationFromMultipart req) ∧
    (contentTypeHead req ≠ "application/json" →
      contentTypeHead req ≠ "multipart/form-data" →
      getOperationFromRequest req =
        Except.error
          (PyErr.valueError "Content-type must be application/json or multipart/form-data")) := by
  refine ⟨?_, ?_, ?_⟩
  · intro h; simp [getOperationFromRequest, h]
  · intro h
    have hne : contentTypeHead req ≠ "application/json" := by
      rw [h]; decide
    simp [getOperationFromRequest, hne, h]
  · intro h1 h2; simp [getOperationFromRequest, h1, h2]

theorem c7_amended_case_sensitive_dispatch_witness :
    getOperationFromRequest c7Request =
      Except.error
        (PyErr.valueError "Content-type must be application/json or multipart/form-data") :=
  (c7_amended_case_sensitive_dispatch c7Request).2.2 (by decide) (by decide)

/-- C6: a multipart request that is well-formed through the
`operations`/`map` parsing steps but whose first map entry references a
file field name with no corresponding uploaded part fails with a
`KeyError` from `files[name]` — a hard lookup error distinct from the
`ValueError` family: the HTTP handler catches only `ValueError`, so the
`KeyError` propagates uncaught out of the handler and no
`400 {errors:[...]}` response is produced. -/
theorem c6_missing_file_uncaught (req : Request) (fd : FormData) (ops mapv : Py)
    (name : String) (pv : Py) (restEntries : List (String × Py))
    (s : String) (morePaths : List Py)
    (hct : contentTypeHead req = "multipart/form-data")
    (hform : req.form = Option.some fd)
    (hops : jsonField (assocGetLast "operations" fd.items) = Option.some ops)
    (hshape : isDictOrList ops = true)
    (hmap : jsonField (assocGetLast "map" fd.items) = Option.some mapv)
    (hentries : mapv = Py.dict ((name, pv) :: restEntries))
    (hpaths : iterPaths pv = Except.ok (Py.str s :: morePaths))
    (hmissing : assocGet name (filesOf fd) = Option.none) :
    getOperationFromRequest req = Except.error (PyErr.keyError name) ∧
    ∀ (ctx : Py) (er : ExecutionResult),
      handleHttpRequest req ctx er = Except.error (PyErr.keyError name) := by
  have hne : contentTypeHead req ≠ "application/json" := by
    rw [hct]; decide
  have hext : getOperationFromRequest req = Except.error (PyErr.keyError name) := by
    simp only [getOperationFromRequest, hne, if_false, hct, if_true]
    rw [getOperationFromMultipart, hform]
    simp only [hops, hshape, Bool.not_true, Bool.false_eq_true, if_false, hmap, hentries]
    simp only [forMap, hpaths]
    simp only [forPaths, hmissing]
    rw [if_neg (by decide)]
  refine ⟨hext, ?_⟩
  intro ctx er
  simp only [handleHttpRequest, hext]

theorem c6_missing_file_uncaught_witness :
    handleHttpRequest c6Request (defaultContext 0) { data := Py.none, errors := [] } =
      Except.error (PyErr.keyError "invalid_name") :=
  (c6_missing_file_uncaught c6Request
    { items :=
        [("operations",
          FormVal.text
            (Except.ok
              (Py.dict [("query", Py.str "mutation"),
                        ("variables", Py.dict [("file", Py.none)])]))),
         ("map",
          FormVal.text
            (Except.ok (Py.dict [("invalid_name", Py.list [Py.str "variables.file"])]))),
         ("0", FormVal.file "test.txt")] }
    (Py.dict [("query", Py.str "mutation"), ("variables", Py.dict [("file", Py.none)])])
    (Py.dict [("invalid_name", Py.list [Py.str "variables.file"])])
    "invalid_name" (Py.list [Py.str "variables.file"]) [] "variables.file" []
    rfl rfl rfl rfl rfl rfl rfl rfl).2 (defaultContext 0) { data := Py.none, errors := [] }

/-- C9 counterexample: a configured static context that is present but
falsy — the empty mapping `{}` — is not returned; the `or` in
`_get_context_value` replaces it with the default
`{"request": ..., "background": ...}` context, refuting the claim that
any present static value (including falsy ones) is returned. -/
theorem c9_falsy_context_counterexample :
    getContextValue (ContextSource.value (Py.dict [])) 7 = defaultContext 7 ∧
    defaultContext 7 ≠ Py.dict [] := by
  constructor
  · rfl
  · intro h
    rw [defaultContext] at h
    injection h with h1
    exact List.cons_ne_nil _ _ h1

/-- C9 amended: the context builder returns the result of invoking a
callable configured source with the connection (awaited when
awaitable); otherwise it returns the configured static value only when
that value is truthy, and for `None` or any falsy configured value
(such as an empty mapping) it returns the default context
`{"request": connection, "background": BackgroundTasks()}`. -/
theorem c9_amended_context_builder (cfg : ContextSource) (conn : Nat) :
    (∀ f, cfg = ContextSource.callableSync f → getContextValue cfg conn = f conn) ∧
    (∀ f, cfg = ContextSource.callableAsync f → getContextValue cfg conn = f conn) ∧
    (∀ v, cfg = ContextSource.value v → truthy v = true → getContextValue cfg conn = v) ∧
    (∀ v, cfg = ContextSource.value v → truthy v = false →
      getContextValue cfg conn = defaultContext conn) := by
  refine ⟨?_, ?_, ?_, ?_⟩
  · intro f h; subst h; rfl
  · intro f h; subst h; rfl
  · intro v h ht; subst h; simp [getContextValue, ht]
  · intro v h ht; subst h; simp [getContextValue, ht]

theorem c9_amended_context_builder_witness :
    getContextValue (ContextSource.value (Py.dict [("my", Py.int 123)])) 3
      = Py.dict [("my", Py.int 123)] :=
  (c9_amended_context_builder (ContextSource.value (Py.dict [("my", Py.int 123)])) 3).2.2.1
    (Py.dict [("my", Py.int 123)]) rfl rfl

/-- C10 counterexample: a POST whose operation extraction succeeds
with a non-array value (the object `{"foo": 1}`) does not get a 200
response: the handler raises an uncaught `KeyError("query")` at
`operation["query"]`, so no response is produced at all, refuting the
claim as universally stated. -/
theorem c10_missing_query_counterexample :
    getOperationFromRequest c10Request = Except.ok (Py.dict [("foo", Py.int 1)]) ∧
    handleHttpRequest c10Request (defaultContext 0) { data := Py.none, errors := [] }
      = Except.error (PyErr.keyError "query") := by
  exact ⟨rfl, rfl⟩

/-- C10 amended: for every POST request whose operation extraction
succeeds with a non-array value that is a mapping containing a `query`
entry, and whose execution context is a mapping (as the default context
is), the handler returns status 200 with the `{data, errors?}` body —
even when the execution result carries errors; a 400 response arises
only from an extraction `ValueError` or from an array-shaped
(batching) operations value. -/
theorem c10_amended_http_200 (req : Request) (ctx : Py) (er : ExecutionResult) :
    (∀ d q c, getOperationFromRequest req = Except.ok (Py.dict d) →
      assocGet "query" d = Option.some q → ctx = Py.dict c →
      handleHttpRequest req ctx er =
        Except.ok { status := 200, body := httpResponseBody er }) ∧
    (∀ resp, handleHttpRequest req ctx er = Except.ok resp → resp.status = 400 →
      (∃ m, getOperationFromRequest req = Except.error (PyErr.valueError m)) ∨
      (∃ xs, getOperationFromRequest req = Except.ok (Py.list xs))) := by
  constructor
  · intro d q c hops hq hctx
    subst hctx
    simp only [handleHttpRequest, hops, pyGetItemStr, hq, pyDotGet]
  · intro resp hresp hstatus
    cases hops : getOperationFromRequest req with
    | error e =>
      cases e with
      | valueError m => exact Or.inl ⟨m, rfl⟩
      | keyError k => simp [handleHttpRequest, hops] at hresp
      | indexError => simp [handleHttpRequest, hops] at hresp
      | typeError => simp [handleHttpRequest, hops] at hresp
      | attributeError => simp [handleHttpRequest, hops] at hresp
    | ok op =>
      cases op with
      | list xs => exact Or.inr ⟨xs, rfl⟩
      | dict kvs =>
        simp only [handleHttpRequest, hops] at hresp
        cases hq : pyGetItemStr (Py.dict kvs) "query" with
        | error e => simp only [hq] at hresp; exact absurd hresp (by simp)
        | ok q =>
          simp only [hq] at hresp
          cases hv : pyDotGet (Py.dict kvs) "variables" with
          | error e => simp only [hv] at hresp; exact absurd hresp (by simp)
          | ok vv =>
            simp only [hv] at hresp
            cases hn : pyDotGet (Py.dict kvs) "operationName" with
            | error e => simp only [hn] at hresp; exact absurd hresp (by simp)
            | ok nn =>
              simp only [hn] at hresp
              cases hb : pyDotGet ctx "background" with
              | error e => simp only [hb] at hresp; exact absurd hresp (by simp)
              | ok bb =>
                simp only [hb] at hresp
                have hr : { status := 200, body := httpResponseBody er } = resp :=
                  Except.ok.inj hresp
                rw [← hr] at hstatus
                simp at hstatus
      | none => simp [handleHttpRequest, hops, pyGetItemStr] at hresp
      | bool b => simp [handleHttpRequest, hops, pyGetItemStr] at hresp
      | int n => simp [handleHttpRequest, hops, pyGetItemStr] at hresp
      | str s => simp [handleHttpRequest, hops, pyGetItemStr] at hresp
      | file fn => simp [handleHttpRequest, hops, pyGetItemStr] at hresp
      | request c => simp [handleHttpRequest, hops, pyGetItemStr] at hresp
      | background => simp [handleHttpRequest, hops, pyGetItemStr] at hresp

theorem c10_amended_http_200_witness :
    handleHttpRequest
        { contentType := Option.some "application/json",
          jsonBody := Option.some (Py.dict [("query", Py.str "query { me { name } }")]),
          form := Option.none }
        (defaultContext 0)
        { data := Py.none, errors := [{ msg := "boom" }] }
      = Except.ok
          { status := 200,
            body := httpResponseBody { data := Py.none, errors := [{ msg := "boom" }] } } :=
  (c10_amended_http_200
      { contentType := Option.some "application/json",
        jsonBody := Option.some (Py.dict [("query", Py.str "query { me { name } }")]),
        form := Option.none }
      (defaultContext 0)
      { data := Py.none, errors := [{ msg := "boom" }] }).1
    [("query", Py.str "query { me { name } }")] (Py.str "query { me { name } }")
    [("request", Py.request 0), ("background", Py.background)] rfl rfl rfl

theorem observeMsgs_emits (id : String) :
    ∀ datas : List Py, observeMsgs id (datas.map StreamEvent.emit) =
      datas.map (fun d => ServerMsg.data id (Py.dict [("data", d)])) := by
  intro datas
  induction datas with
  | nil => rfl
  | cons d rest ih => simp [observeMsgs, ih]

theorem closeFrom_length (targets : List Nat) :
    ∀ (store : List Producer) (i : Nat), (closeFrom targets i store).length = store.length := by
  intro store
  induction store with
  | nil => intro i; rfl
  | cons p rest ih => intro i; simp [closeFrom, ih]

theorem closeFrom_getElem? (targets : List Nat) :
    ∀ (store : List Producer) (i j : Nat),
      (closeFrom targets i store)[j]? =
        (store[j]?).map
          (fun p => if natMem (i + j) targets then { remaining := [], closed := true } else p) := by
  intro store
  induction store with
  | nil => intro i j; simp [closeFrom]
  | cons p rest ih =>
    intro i j
    cases j with
    | zero => simp [closeFrom]
    | succ m =>
      simp only [closeFrom, List.getElem?_cons_succ, ih (i + 1) m]
      have harith : i + 1 + m = i + (m + 1) := by omega
      rw [harith]

theorem assocGet_mem_values (id : String) (idx : Nat) :
    ∀ l : List (String × Nat), assocGet id l = Option.some idx →
      natMem idx (l.map (fun kv => kv.2)) = true := by
  intro l
  induction l with
  | nil => intro h; simp [assocGet] at h
  | cons kv rest ih =>
    obtain ⟨k, v⟩ := kv
    intro h
    by_cases hk : k = id
    · simp [assocGet, hk] at h
      simp [natMem, h]
    · simp [assocGet, hk] at h
      by_cases hv : v = idx <;> simp [natMem, hv, ih h]

/-- C4: during a `start` whose context builds, a syntactically invalid
query makes the parse error the sole captured error, and whenever the
captured error list is non-empty at the final `if errors:` test the
server appends exactly one message — the `error` message carrying the
formatted first error — and changes nothing else: no registry entry, no
observer task, hence zero `data` and zero `complete` messages for that
id. -/
theorem c4_error_single_message (o : StartOutcome) (id : String) (st : WsState)
    (hctx : o.ctxResult = Except.ok ()) :
    (∀ pe, o.parseResult = Except.error pe → capturedErrors o = [pe]) ∧
    (∀ e erest, capturedErrors o = e :: erest →
      wsOnStart o id st = Except.ok (sendMsg st (ServerMsg.error id (formatError e)))) := by
  constructor
  · intro pe hp
    simp [capturedErrors, stageErrors, hp]
  · intro e erest herr
    simp only [wsOnStart, hctx]
    cases hst : stageErrors o with
    | cons e0 rest0 =>
      simp only [capturedErrors, hst] at herr
      injection herr with h1 h2
      simp only [hst, h1]
    | nil =>
      simp only [capturedErrors, hst] at herr
      simp only [hst]
      by_cases hop : o.opType = Option.some OpType.subscription
      · rw [if_pos hop] at herr
        rw [if_pos hop]
        cases hsub : o.subscribeResult with
        | error errs =>
          simp only [hsub] at herr
          simp only [startSubscription, hsub]
          rw [herr]
        | ok events =>
          simp [hsub] at herr
      · rw [if_neg hop] at herr
        rw [if_neg hop]
        cases hex : o.executeReturn with
        | sync r =>
          simp only [hex] at herr
          cases herrs : r.errors.isEmpty with
          | true => simp [herrs] at herr
          | false =>
            simp only [herrs, Bool.false_eq_true, if_false] at herr
            simp only [handleQueryOverWs, hex, herrs, Bool.false_eq_true, if_false]
            rw [herr]
        | async r =>
          simp [hex] at herr

theorem c4_error_single_message_witness :
    wsOnStart c4Outcome "q1" initialWsState =
      Except.ok
        (sendMsg initialWsState
          (ServerMsg.error "q1" (formatError { msg := "Syntax Error" }))) :=
  (c4_error_single_message c4Outcome "q1" initialWsState rfl).2
    { msg := "Syntax Error" } [] rfl

/-- C3: a `start` that builds its context, parses and validates
cleanly, resolves to a subscription operation, and receives from
`subscribe` a generator that yields the results `datas` and then ends,
sends nothing inline, registers the generator under the start's id, and
its observer — run on a still-open connection — sends, in order,
exactly one `data` message per yielded result followed by exactly one
`complete` message, every one tagged with that id. -/
theorem c3_subscription_stream (o : StartOutcome) (id : String) (st : WsState)
    (datas : List Py)
    (hctx : o.ctxResult = Except.ok ())
    (hstage : stageErrors o = [])
    (hop : o.opType = Option.some OpType.subscription)
    (hsub : o.subscribeResult = Except.ok (datas.map StreamEvent.emit))
    (hc : st.clientOpen = true) (ha : st.appOpen = true) :
    ∃ st', wsOnStart o id st = Except.ok st' ∧
      st'.sent = st.sent ∧
      assocGet id st'.subscriptions = Option.some st.store.length ∧
      (runObserver st' id st.store.length).sent =
        st.sent ++ datas.map (fun d => ServerMsg.data id (Py.dict [("data", d)]))
          ++ [ServerMsg.complete id] := by
  refine
    ⟨{ st with
        store := st.store ++ [{ remaining := datas.map StreamEvent.emit, closed := false }],
        subscriptions := assocSet id st.store.length st.subscriptions,
        pending := st.pending ++ [(id, st.store.length)] }, ?_, rfl, ?_, ?_⟩
  · simp only [wsOnStart, hctx, hstage]
    rw [if_pos hop]
    simp only [startSubscription, hsub]
  · exact assocGet_assocSet id st.store.length st.subscriptions
  · have hget :
        (st.store ++ [{ remaining := datas.map StreamEvent.emit, closed := false }])[st.store.length]? =
          Option.some { remaining := datas.map StreamEvent.emit, closed := false } :=
      List.getElem?_concat_length st.store _
    simp only [runObserver, hget, hc, ha, Bool.and_self, if_true, observeMsgs_emits,
      List.append_assoc]

theorem c3_subscription_stream_witness :
    (runObserver
        (wsStep
          (ClientMsg.start "q1" (subOutcome [StreamEvent.emit (Py.int 0), StreamEvent.emit (Py.int 1)]))
          initialWsState)
        "q1" 0).sent =
      [ServerMsg.data "q1" (Py.dict [("data", Py.int 0)]),
       ServerMsg.data "q1" (Py.dict [("data", Py.int 1)]),
       ServerMsg.complete "q1"] := by
  obtain ⟨st', h1, h2, h3, h4⟩ :=
    c3_subscription_stream
      (subOutcome [StreamEvent.emit (Py.int 0), StreamEvent.emit (Py.int 1)])
      "q1" initialWsState [Py.int 0, Py.int 1] rfl rfl rfl rfl rfl rfl
  have hstep :
      wsStep
        (ClientMsg.start "q1" (subOutcome [StreamEvent.emit (Py.int 0), StreamEvent.emit (Py.int 1)]))
        initialWsState = st' := by
    simp only [wsStep, handleWebsocketMessage, h1]
  rw [hstep]
  exact h4

/-- C1 counterexample: after the producer of `q1` ends naturally (the
observer has consumed it and already sent the `complete` message), the
id is still present in the subscription registry — `_observe_subscription`
is not handed the registry and never deletes the entry.  This refutes
the claim that the entry is removed on producer exhaustion and that no
id stays registered after its producer stops being active. -/
theorem c1_registry_not_removed_on_exhaustion :
    c1Final.sent = [ServerMsg.complete "q1"] ∧
    c1Final.store[0]? = Option.some { remaining := [], closed := false } ∧
    assocGet "q1" c1Final.subscriptions = Option.some 0 :=
  ⟨rfl, rfl, rfl⟩

/-- C1 amended: the registry entry of an id is removed exactly once by
`stop` (which also closes the generator; a second `stop` for the same
id is a no-op); on connection teardown every registered generator is
closed (the registry itself dies with the connection); but on producer
exhaustion the entry is NOT removed — the observer leaves the registry
untouched, and the id stays registered until a `stop` or teardown. -/
theorem c1_amended_registry_lifecycle :
    (∀ (st : WsState) (id : String) (idx : Nat),
      assocGet id st.subscriptions = Option.some idx →
      handleWebsocketMessage (ClientMsg.stop id) st =
        Except.ok
          { st with
              store := st.store.set idx { remaining := [], closed := true },
              subscriptions := assocDel id st.subscriptions } ∧
      assocGet id (assocDel id st.subscriptions) = Option.none) ∧
    (∀ (st : WsState) (id : String),
      assocGet id st.subscriptions = Option.none →
      handleWebsocketMessage (ClientMsg.stop id) st = Except.ok st) ∧
    (∀ (st : WsState) (id : String) (idx : Nat),
      (runObserver st id idx).subscriptions = st.subscriptions) ∧
    (∀ (st : WsState) (id : String) (idx : Nat) (p : Producer),
      assocGet id st.subscriptions = Option.some idx →
      st.store[idx]? = Option.some p →
      (teardown st).store[idx]? = Option.some { remaining := [], closed := true }) := by
  refine ⟨?_, ?_, ?_, ?_⟩
  · intro st id idx h
    constructor
    · simp only [handleWebsocketMessage, h]
    · exact assocGet_assocDel id st.subscriptions
  · intro st id h
    simp only [handleWebsocketMessage, h]
  · intro st id idx
    cases hs : st.store[idx]? <;> simp [runObserver, hs]
  · intro st id idx p hreg hstore
    have hm : natMem idx (st.subscriptions.map (fun kv => kv.2)) = true :=
      assocGet_mem_values id idx st.subscriptions hreg
    simp only [teardown]
    rw [closeFrom_getElem? _ st.store 0 idx, hstore]
    simp [Nat.zero_add, hm]

theorem c1_amended_registry_lifecycle_witness :
    handleWebsocketMessage (ClientMsg.stop "q1") c1RegState =
      Except.ok
        { c1RegState with
            store := [{ remaining := [], closed := true }],
            subscriptions := [] } :=
  (c1_amended_registry_lifecycle.1 c1RegState "q1" 0 rfl).1

/-- C2: whatever way the message loop of a session ends, the server
runs the `finally` block before releasing the connection: the close of
every still-registered generator is gathered, and the final state —
reached only after the gather returns — has every registered producer
closed with nothing left to yield.  Hence no registered producer
outlives its owning connection. -/
theorem c2_teardown_closes_all (events : List InEvent) (st0 : WsState)
    (id : String) (idx : Nat)
    (hreg : assocGet id (runWebsocketServer events st0).1.subscriptions = Option.some idx)
    (hidx : idx < (runWebsocketServer events st0).1.store.length) :
    (runWebsocketServer events st0).1.store[idx]? =
      Option.some { remaining := [], closed := true } := by
  have hreg' : assocGet id (runLoop events st0).1.subscriptions = Option.some idx := hreg
  have hm : natMem idx ((runLoop events st0).1.subscriptions.map (fun kv => kv.2)) = true :=
    assocGet_mem_values id idx (runLoop events st0).1.subscriptions hreg'
  have hlen : idx < (runLoop events st0).1.store.length := by
    have h1 :
        (runWebsocketServer events st0).1.store.length =
          (runLoop events st0).1.store.length :=
      closeFrom_length _ (runLoop events st0).1.store 0
    exact h1 ▸ hidx
  show (teardown (runLoop events st0).1).store[idx]? = _
  simp only [teardown]
  rw [closeFrom_getElem? _ (runLoop events st0).1.store 0 idx,
    List.getElem?_eq_getElem hlen]
  simp [Nat.zero_add, hm]

theorem c2_teardown_closes_all_witness :
    (runWebsocketServer c2Events initialWsState).1.store[0]? =
      Option.some { remaining := [], closed := true } :=
  c2_teardown_closes_all c2Events initialWsState "q1" 0 rfl (by decide)

/-- C8 amended: an exception raised by the context builder during a
`start` propagates out of `_ws_on_start` and out of the message loop —
only `WebSocketDisconnect` is caught there — so the loop stops (no
later message is processed), the `finally` block closes every
registered producer of the connection, and the exception escapes the
coroutine: the failure is fatal to the connection, not confined to the
single operation. -/
theorem c8_amended_context_failure_fatal (st : WsState) (rest : List InEvent)
    (id : String) (o : StartOutcome) (e : PyErr)
    (hc : st.clientOpen = true) (ha : st.appOpen = true)
    (hctx : o.ctxResult = Except.error e) :
    runWebsocketServer (InEvent.msg (ClientMsg.start id o) :: rest) st =
      (teardown st, ServerExit.raised e) := by
  simp only [runWebsocketServer, runLoop, hc, ha, Bool.and_self, if_true,
    handleWebsocketMessage, wsOnStart, hctx]

theorem c8_amended_context_failure_fatal_witness :
    runWebsocketServer [InEvent.msg (ClientMsg.start "q2" c8BadOutcome)] initialWsState =
      (teardown initialWsState, ServerExit.raised (PyErr.valueError "boom")) :=
  c8_amended_context_failure_fatal initialWsState [] "q2" c8BadOutcome
    (PyErr.valueError "boom") rfl rfl rfl

/-- C8 counterexample: with a live subscription `q1` on the
connection, a context-builder failure during the `start` of `q2` makes
the whole server coroutine raise: the following `start q3` is never
processed (no registry entry, no message for it), and `q1`'s live
producer is cancelled by the teardown block — the connection is torn
down, refuting the claim that only the single operation is aborted. -/
theorem c8_context_failure_counterexample :
    (runWebsocketServer c8Events initialWsState).2 =
      ServerExit.raised (PyErr.valueError "boom") ∧
    assocGet "q3" (runWebsocketServer c8Events initialWsState).1.subscriptions =
      Option.none ∧
    assocGet "q1" (runWebsocketServer c8Events initialWsState).1.subscriptions =
      Option.some 0 ∧
    (runWebsocketServer c8Events initialWsState).1.store[0]? =
      Option.some { remaining := [], closed := true } :=
  ⟨rfl, rfl, rfl, rfl⟩
